import Mathlib

/-!
Shallow embedding of `src/v4l2-relayd.c` (v4l2-relayd daemon).

The daemon keeps three GStreamer pipeline slots in module-level globals
(`input_pipeline`, `output_pipeline`, `splash_pipeline`), together with the
bus-watch ids, the fd poll source id and the main loop.  We model that global
state as the structure `St`, the environment facts that are fixed for one run
(whether `gst_parse_launch_full` succeeds on each description, whether the
output bin has a `v4l2sink`, whether `VIDIOC_SUBSCRIBE_EVENT` succeeds) as
`Cfg`, and each C callback / helper as a pure function `St → St × List Act`
where `Act` records the externally visible calls the C code makes, in order.
-/

namespace V4l2Relayd

/-- GStreamer element states (the subset the daemon uses). `null` is
`GST_STATE_NULL` (stopped). -/
inductive GstState
  | null
  | ready
  | paused
  | playing
deriving DecidableEq, Repr

/-- The three pipeline slots of the daemon. -/
inductive Slot
  | input
  | splash
  | output
deriving DecidableEq, Repr

/-- Externally visible actions performed by the C code, in program order.
`construct sl ok` is one invocation of `backend_pipeline_create` for slot `sl`
with its outcome; `setState sl st` is `gst_element_set_state` on the (non-NULL)
pipeline of slot `sl`; `setStateNone` is `gst_element_set_state` called with a
NULL pipeline pointer (a GLib critical, no state change); `dispatchActivate` /
`dispatchDeactivate` mark the calls to `input_pipeline_enable` /
`input_pipeline_disable` from the V4L2 event callback; `removeWatch sl live`
and `destroy sl live` are the shutdown-time `g_source_remove` of a bus watch id
and the `gst_element_set_state(...,NULL)` + `gst_object_unref` pair on a
pipeline slot, where `live` records whether that id / slot had ever been
created. -/
inductive Act
  | construct (sl : Slot) (ok : Bool)
  | setState (sl : Slot) (st : GstState)
  | setStateNone
  | dispatchActivate
  | dispatchDeactivate
  | warnUnsupported
  | logError
  | quitLoop
  | removePoll
  | removeWatch (sl : Slot) (live : Bool)
  | destroy (sl : Slot) (live : Bool)
deriving DecidableEq, Repr

/-- The daemon's module-level mutable state.  `inputC` models
`input_pipeline != NULL` (similarly `splashC`); `inputS`, `splashS`, `outputS`
are the pipelines' element states (meaningful when the slot is non-NULL);
`inputWatch`/`splashWatch`/`outputWatch` model `*_bus_watch_id != 0`;
`pollActive` models `v4l2_event_poll_id > 0`; `loopQuit` records that
`g_main_loop_quit (loop)` was called; the `*Base` fields are the pipelines'
base times (`gst_element_set_base_time` / `gst_element_get_base_time`). -/
structure St where
  inputC : Bool
  splashC : Bool
  inputS : GstState
  splashS : GstState
  outputS : GstState
  inputWatch : Bool
  splashWatch : Bool
  outputWatch : Bool
  pollActive : Bool
  loopQuit : Bool
  inputBase : Nat
  splashBase : Nat
  outputBase : Nat
deriving DecidableEq, Repr

/-- Environment facts fixed for one run of the daemon: whether
`backend_pipeline_create` succeeds for the input description (`opt_input`
parses and has an unlinked src pad), likewise for the splash description,
whether `gst_bin_get_by_name (output, "v4l2sink")` finds an element, and
whether the `VIDIOC_SUBSCRIBE_EVENT` ioctl succeeds.  These are deterministic
properties of the command line, the installed plugins and the kernel, hence
constant across calls within a run. -/
structure Cfg where
  inputOk : Bool
  splashOk : Bool
  hasV4l2sink : Bool
  subscribeOk : Bool
deriving DecidableEq, Repr

/-- Embeds `input_pipeline_get`: if `input_pipeline == NULL`, call
`backend_pipeline_create ("input-pipeline", opt_input, &input_bus_watch_id)`.
On success the pipeline starts in the NULL state, copies the output pipeline's
base time and registers a bus watch; on failure the slot stays NULL.  Returns
the updated state, whether the returned pipeline pointer is non-NULL, and the
trace. -/
def input_pipeline_get (c : Cfg) (s : St) : St × Bool × List Act :=
  if s.inputC then (s, true, [])
  else if c.inputOk then
    ({ s with inputC := true, inputS := GstState.null, inputWatch := true,
              inputBase := s.outputBase },
     true, [Act.construct Slot.input true])
  else (s, false, [Act.construct Slot.input false])

/-- Embeds `splash_pipeline_get` (same shape as `input_pipeline_get`, for the
splash slot and `opt_splash`). -/
def splash_pipeline_get (c : Cfg) (s : St) : St × Bool × List Act :=
  if s.splashC then (s, true, [])
  else if c.splashOk then
    ({ s with splashC := true, splashS := GstState.null, splashWatch := true,
              splashBase := s.outputBase },
     true, [Act.construct Slot.splash true])
  else (s, false, [Act.construct Slot.splash false])

/-- Embeds `input_pipeline_enable`:
`gst_element_set_state (splash_pipeline_get (), GST_STATE_NULL);`
`gst_element_set_state (input_pipeline_get (), GST_STATE_PLAYING);`
A `set_state` on a NULL pointer (failed construction) changes nothing. -/
def input_pipeline_enable (c : Cfg) (s : St) : St × List Act :=
  let r1 := splash_pipeline_get c s
  let s1 := r1.1
  let p1 :=
    if r1.2.1 then ({ s1 with splashS := GstState.null },
                    [Act.setState Slot.splash GstState.null])
    else (s1, [Act.setStateNone])
  let r2 := input_pipeline_get c p1.1
  let s2 := r2.1
  let p2 :=
    if r2.2.1 then ({ s2 with inputS := GstState.playing },
                    [Act.setState Slot.input GstState.playing])
    else (s2, [Act.setStateNone])
  (p2.1, r1.2.2 ++ p1.2 ++ r2.2.2 ++ p2.2)

/-- Embeds `input_pipeline_disable`:
`if (input_pipeline != NULL) gst_element_set_state (input_pipeline, GST_STATE_NULL);`
`if (input_pipeline != NULL) gst_element_set_state (splash_pipeline, GST_STATE_PLAYING);`
Note both guards test `input_pipeline`, and the second statement uses the raw
`splash_pipeline` global (not `splash_pipeline_get`), so no lazy construction
happens here and, when `splash_pipeline` is NULL, the `set_state` is a no-op. -/
def input_pipeline_disable (s : St) : St × List Act :=
  let p1 :=
    if s.inputC then ({ s with inputS := GstState.null },
                      [Act.setState Slot.input GstState.null])
    else (s, [])
  let s1 := p1.1
  let p2 :=
    if s1.inputC then
      (if s1.splashC then ({ s1 with splashS := GstState.playing },
                           [Act.setState Slot.splash GstState.playing])
       else (s1, [Act.setStateNone]))
    else (s1, [])
  (p2.1, p1.2 ++ p2.2)

/-- The private V4L2 event type `V4L2_EVENT_PRI_CLIENT_USAGE`
(= `V4L2_EVENT_PRIVATE_START` = 0x08000000). -/
def V4L2_EVENT_PRI_CLIENT_USAGE : Nat := 0x08000000

/-- One event record as dequeued by `VIDIOC_DQEVENT`: the `type` field, the
client-usage `count` payload (meaningful when
`type = V4L2_EVENT_PRI_CLIENT_USAGE`) and the `pending` field (number of
further queued events, here just whether it is nonzero). -/
structure V4l2Event where
  etype : Nat
  count : Nat
  pending : Bool
deriving DecidableEq, Repr

/-- Embeds the do-while drain loop of `v4l2sink_event_callback`: `evts` scripts
the successive `VIDIOC_DQEVENT` results, `none` being an ioctl failure (which
ends the drain).  A client-usage event dispatches `input_pipeline_enable` when
`usage.count` is nonzero, else `input_pipeline_disable`; other event types are
ignored.  The loop continues while `event.pending` is set. -/
def drainEvents (c : Cfg) : St → List (Option V4l2Event) → St × List Act
  | s, [] => (s, [])
  | s, none :: _ => (s, [])
  | s, some e :: rest =>
    let p1 :=
      if e.etype = V4L2_EVENT_PRI_CLIENT_USAGE then
        if e.count ≠ 0 then
          let q := input_pipeline_enable c s
          (q.1, Act.dispatchActivate :: q.2)
        else
          let q := input_pipeline_disable s
          (q.1, Act.dispatchDeactivate :: q.2)
      else (s, [])
    if e.pending then
      let p2 := drainEvents c p1.1 rest
      (p2.1, p1.2 ++ p2.2)
    else p1

/-- Embeds `v4l2sink_event_callback`: if the readiness condition lacks
`G_IO_PRI` the callback returns immediately, otherwise it drains all pending
events. -/
def v4l2sink_event_callback (c : Cfg) (hasPri : Bool)
    (evts : List (Option V4l2Event)) (s : St) : St × List Act :=
  if hasPri then drainEvents c s evts else (s, [])

/-- Bus messages as far as the daemon inspects them: a state-changed message
carries whether `GST_MESSAGE_SRC` is a pipeline plus the old and new states;
error and EOS messages; everything else is `other`. -/
inductive GstMessage
  | stateChanged (srcIsPipeline : Bool) (oldS newS : GstState)
  | eos
  | error
  | other
deriving DecidableEq, Repr

/-- Sets the element state of slot `sl` in the daemon state. -/
def setSlotState (sl : Slot) (st : GstState) (s : St) : St :=
  match sl with
  | Slot.input  => { s with inputS := st }
  | Slot.splash => { s with splashS := st }
  | Slot.output => { s with outputS := st }

/-- Embeds `backend_pipeline_bus_call`, registered on the input and splash
pipelines' buses with `data` = the owning pipeline: on `GST_MESSAGE_ERROR` it
logs the error and sets that pipeline to `GST_STATE_NULL`; every other message
type (including EOS) falls into the `default` case and does nothing. -/
def backend_pipeline_bus_call (sl : Slot) (msg : GstMessage) (s : St) :
    St × List Act :=
  match msg with
  | GstMessage.error =>
      (setSlotState sl GstState.null s,
       [Act.logError, Act.setState sl GstState.null])
  | _ => (s, [])

/-- Embeds `output_pipeline_bus_call`, registered on the output pipeline's bus.
State-changed messages from a non-pipeline source are skipped.  Leaving
PLAYING removes the fd poll source (when installed).  A READY → PAUSED
transition starts the splash pipeline (constructing it lazily).  On reaching
PLAYING the handler looks up the `v4l2sink` element, subscribes to
`V4L2_EVENT_PRI_CLIENT_USAGE` and, on success, installs the fd poll source;
on ioctl failure it only logs a warning.  EOS and error messages quit the main
loop. -/
def output_pipeline_bus_call (c : Cfg) (msg : GstMessage) (s : St) :
    St × List Act :=
  match msg with
  | GstMessage.stateChanged srcIsPipeline oldS newS =>
    if !srcIsPipeline then (s, [])
    else if oldS = GstState.playing then
      (if s.pollActive then ({ s with pollActive := false }, [Act.removePoll])
       else (s, []))
    else
      let p1 :=
        if oldS = GstState.ready ∧ newS = GstState.paused then
          let r := splash_pipeline_get c s
          if r.2.1 then
            ({ r.1 with splashS := GstState.playing },
             r.2.2 ++ [Act.setState Slot.splash GstState.playing])
          else (r.1, r.2.2 ++ [Act.setStateNone])
        else (s, [])
      if newS ≠ GstState.playing then p1
      else if !c.hasV4l2sink then p1
      else if c.subscribeOk then ({ p1.1 with pollActive := true }, p1.2)
      else (p1.1, p1.2 ++ [Act.warnUnsupported])
  | GstMessage.eos => ({ s with loopQuit := true }, [Act.quitLoop])
  | GstMessage.error =>
      ({ s with loopQuit := true }, [Act.logError, Act.quitLoop])
  | GstMessage.other => (s, [])

/-- The daemon state right after `main`'s startup sequence, assuming
`output_pipeline_create` succeeded: the output pipeline exists with base time
`t0` (the system-clock reading at creation) and a registered bus watch, and
`main` has requested `GST_STATE_PLAYING` on it; the input and splash slots are
NULL, no fd poll source is installed, the loop is running. -/
def initSt (t0 : Nat) : St :=
  { inputC := false, splashC := false,
    inputS := GstState.null, splashS := GstState.null,
    outputS := GstState.playing,
    inputWatch := false, splashWatch := false, outputWatch := true,
    pollActive := false, loopQuit := false,
    inputBase := 0, splashBase := 0, outputBase := t0 }

/-- One externally triggered event-loop callback: fd readiness on the output
device (dispatched only while the poll source is installed), a message on the
output pipeline's bus, or a message on the input / splash pipeline's bus
(dispatched only while that slot's bus watch exists). -/
inductive Op
  | v4l2Events (hasPri : Bool) (evts : List (Option V4l2Event))
  | outputMsg (msg : GstMessage)
  | inputMsg (msg : GstMessage)
  | splashMsg (msg : GstMessage)

/-- Dispatches one event-loop callback on the daemon state.  A callback whose
source was never installed (no poll source, no bus watch) cannot fire and is a
no-op. -/
def applyOp (c : Cfg) (s : St) : Op → St × List Act
  | Op.v4l2Events hasPri evts =>
      if s.pollActive then v4l2sink_event_callback c hasPri evts s else (s, [])
  | Op.outputMsg m =>
      if s.outputWatch then output_pipeline_bus_call c m s else (s, [])
  | Op.inputMsg m =>
      if s.inputWatch then backend_pipeline_bus_call Slot.input m s else (s, [])
  | Op.splashMsg m =>
      if s.splashWatch then backend_pipeline_bus_call Slot.splash m s
      else (s, [])

/-- Runs a sequence of event-loop callbacks from a state. -/
def run (c : Cfg) (s : St) : List Op → St
  | [] => s
  | op :: ops => run c (applyOp c s op).1 ops

/-- Runs a sequence of event-loop callbacks, also collecting the
concatenated action trace. -/
def runTrace (c : Cfg) (s : St) : List Op → St × List Act
  | [] => (s, [])
  | op :: ops =>
    let p := applyOp c s op
    let q := runTrace c p.1 ops
    (q.1, p.2 ++ q.2)

/-- Embeds the teardown sequence at the end of `main`, after
`g_main_loop_run` returns: `g_source_remove` on the three bus-watch ids, then
for output, input, splash in that order `gst_element_set_state (..., NULL)`
and `gst_object_unref`.  All nine calls are unconditional in the C code; the
`live` flag on each recorded action tells whether the id / slot had actually
been created (the output pipeline exists whenever this code runs, see
`initSt`). -/
def shutdown_teardown (s : St) : St × List Act :=
  ({ s with inputWatch := false, outputWatch := false, splashWatch := false,
            outputS := GstState.null, inputS := GstState.null,
            splashS := GstState.null },
   [Act.removeWatch Slot.input s.inputWatch,
    Act.removeWatch Slot.output s.outputWatch,
    Act.removeWatch Slot.splash s.splashWatch,
    Act.destroy Slot.output true,
    Act.destroy Slot.input s.inputC,
    Act.destroy Slot.splash s.splashC])

/-- The dispatch markers (calls to `input_pipeline_enable` /
`input_pipeline_disable`) occurring in a trace, in order. -/
def dispatchesOf (tr : List Act) : List Act :=
  tr.filter (fun a => a == Act.dispatchActivate || a == Act.dispatchDeactivate)

/-- A configuration in which every environment interaction succeeds. -/
def cfgAll : Cfg :=
  { inputOk := true, splashOk := true, hasV4l2sink := true, subscribeOk := true }

/-- A configuration in which only the `VIDIOC_SUBSCRIBE_EVENT` ioctl fails
(an older or restricted kernel driver). -/
def cfgNoSub : Cfg :=
  { inputOk := true, splashOk := true, hasV4l2sink := true, subscribeOk := false }

/-- Whether an action is a shutdown-time bus-watch removal. -/
def isRemoveWatch : Act → Bool
  | Act.removeWatch _ _ => true
  | _ => false

/-- Whether an action is a shutdown-time pipeline destruction
(`set_state NULL` + unref). -/
def isDestroy : Act → Bool
  | Act.destroy _ _ => true
  | _ => false

/-- Every bus-watch removal in the trace occurs strictly before every pipeline
destruction: the trace splits into a destruction-free part followed by a
removal-free part, so no destruction can precede any watch removal. -/
def watchesBeforeDestroys (tr : List Act) : Prop :=
  ∃ tr1 tr2, tr = tr1 ++ tr2 ∧ (∀ a ∈ tr1, isDestroy a = false) ∧
    (∀ a ∈ tr2, isRemoveWatch a = false)

/-- The number of successful `backend_pipeline_create` calls for slot `sl`
recorded in a trace. -/
def countConstruct (sl : Slot) (tr : List Act) : Nat :=
  tr.count (Act.construct sl true)

/-- Numeric view of a Bool flag (1 when the slot is occupied, 0 when not),
used to account for constructions. -/
def b2n (b : Bool) : Nat :=
  cond b 1 0

/-- The synchronization-anchor invariant: any constructed input or splash
pipeline has the same base time as the output pipeline. -/
def baseInv (s : St) : Prop :=
  (s.inputC = true → s.inputBase = s.outputBase) ∧
  (s.splashC = true → s.splashBase = s.outputBase)

/-- One step of the per-event dispatch of `v4l2sink_event_callback`: enable
the input pipeline when the reported count is nonzero, disable it otherwise. -/
def dispatchStep (c : Cfg) (t : St) (e : V4l2Event) : St :=
  if e.count ≠ 0 then (input_pipeline_enable c t).1 else (input_pipeline_disable t).1

/-- The eventful part of the C2 batch scenario: the output pipeline goes
READY → PAUSED (splash starts) then PAUSED → PLAYING (event subscription),
after which one readiness notification drains a batch of two client-usage
events, `count=2` then `count=0`. -/
def scenarioBatchOps : List Op :=
  [Op.outputMsg (GstMessage.stateChanged true GstState.ready GstState.paused),
   Op.outputMsg (GstMessage.stateChanged true GstState.paused GstState.playing),
   Op.v4l2Events true
     [some { etype := V4L2_EVENT_PRI_CLIENT_USAGE, count := 2, pending := true },
      some { etype := V4L2_EVENT_PRI_CLIENT_USAGE, count := 0, pending := false }]]

/-- A run prefix in which the output pipeline goes READY → PAUSED (splash
starts) then PAUSED → PLAYING (event subscription), after which one readiness
notification delivers a single client-usage event with `count = 1`
(a consumer attached), activating the input pipeline. -/
def scenarioActivateOps : List Op :=
  [Op.outputMsg (GstMessage.stateChanged true GstState.ready GstState.paused),
   Op.outputMsg (GstMessage.stateChanged true GstState.paused GstState.playing),
   Op.v4l2Events true
     [some { etype := V4L2_EVENT_PRI_CLIENT_USAGE, count := 1, pending := false }]]

/-
Helper lemmas: characterizations of the lazy constructors and basic trace
facts, shared by the claim theorems below.
-/

theorem splash_pipeline_get_fst (c : Cfg) (s : St) :
    (splash_pipeline_get c s).1 =
      if ¬s.splashC ∧ c.splashOk then
        { s with splashC := true, splashS := GstState.null, splashWatch := true,
                 splashBase := s.outputBase }
      else s := by
  cases hc : s.splashC <;> cases ho : c.splashOk <;>
    simp [splash_pipeline_get, hc, ho]

theorem splash_pipeline_get_ok (c : Cfg) (s : St) :
    (splash_pipeline_get c s).2.1 = (s.splashC || c.splashOk) := by
  cases hc : s.splashC <;> cases ho : c.splashOk <;>
    simp [splash_pipeline_get, hc, ho]

theorem splash_pipeline_get_tr (c : Cfg) (s : St) :
    (splash_pipeline_get c s).2.2 =
      if s.splashC then [] else [Act.construct Slot.splash c.splashOk] := by
  cases hc : s.splashC <;> cases ho : c.splashOk <;>
    simp [splash_pipeline_get, hc, ho]

theorem input_pipeline_get_fst (c : Cfg) (s : St) :
    (input_pipeline_get c s).1 =
      if ¬s.inputC ∧ c.inputOk then
        { s with inputC := true, inputS := GstState.null, inputWatch := true,
                 inputBase := s.outputBase }
      else s := by
  cases hc : s.inputC <;> cases ho : c.inputOk <;>
    simp [input_pipeline_get, hc, ho]

theorem input_pipeline_get_ok (c : Cfg) (s : St) :
    (input_pipeline_get c s).2.1 = (s.inputC || c.inputOk) := by
  cases hc : s.inputC <;> cases ho : c.inputOk <;>
    simp [input_pipeline_get, hc, ho]

theorem input_pipeline_get_tr (c : Cfg) (s : St) :
    (input_pipeline_get c s).2.2 =
      if s.inputC then [] else [Act.construct Slot.input c.inputOk] := by
  cases hc : s.inputC <;> cases ho : c.inputOk <;>
    simp [input_pipeline_get, hc, ho]

theorem input_pipeline_enable_fst (c : Cfg) (s : St) :
    (input_pipeline_enable c s).1 =
      { s with
        splashC := s.splashC || c.splashOk,
        splashS := if s.splashC || c.splashOk then GstState.null else s.splashS,
        splashWatch := s.splashWatch || (!s.splashC && c.splashOk),
        splashBase := if !s.splashC && c.splashOk then s.outputBase
                      else s.splashBase,
        inputC := s.inputC || c.inputOk,
        inputS := if s.inputC || c.inputOk then GstState.playing else s.inputS,
        inputWatch := s.inputWatch || (!s.inputC && c.inputOk),
        inputBase := if !s.inputC && c.inputOk then s.outputBase
                     else s.inputBase } := by
  obtain ⟨ic, sc, iS, sS, oS, iW, sW, oW, pA, lQ, iB, sB, oB⟩ := s
  cases sc <;> cases ic <;> cases hso : c.splashOk <;> cases hio : c.inputOk <;>
    simp [input_pipeline_enable, splash_pipeline_get, input_pipeline_get,
          hso, hio]

theorem input_pipeline_enable_tr (c : Cfg) (s : St) :
    (input_pipeline_enable c s).2 =
      (if s.splashC then [] else [Act.construct Slot.splash c.splashOk]) ++
      (if s.splashC || c.splashOk then [Act.setState Slot.splash GstState.null]
       else [Act.setStateNone]) ++
      (if s.inputC then [] else [Act.construct Slot.input c.inputOk]) ++
      (if s.inputC || c.inputOk then [Act.setState Slot.input GstState.playing]
       else [Act.setStateNone]) := by
  cases hsc : s.splashC <;> cases hic : s.inputC <;>
    cases hso : c.splashOk <;> cases hio : c.inputOk <;>
      simp [input_pipeline_enable, splash_pipeline_get, input_pipeline_get,
            hsc, hic, hso, hio]

theorem input_pipeline_disable_fst (s : St) :
    (input_pipeline_disable s).1 =
      if s.inputC then
        { s with inputS := GstState.null,
                 splashS := if s.splashC then GstState.playing else s.splashS }
      else s := by
  cases hic : s.inputC <;> cases hsc : s.splashC <;>
    simp [input_pipeline_disable, hic, hsc]

theorem input_pipeline_disable_tr (s : St) :
    (input_pipeline_disable s).2 =
      if s.inputC then
        Act.setState Slot.input GstState.null ::
          (if s.splashC then [Act.setState Slot.splash GstState.playing]
           else [Act.setStateNone])
      else [] := by
  cases hic : s.inputC <;> cases hsc : s.splashC <;>
    simp [input_pipeline_disable, hic, hsc]

/-- C1: in the code, `input_pipeline_disable` guards the splash-resume on
`input_pipeline != NULL` and uses the raw `splash_pipeline` global, so at a
reachable state in which the input pipeline was never constructed (here: the
splash pipeline was started at READY → PAUSED and then stopped by an error on
its own bus, while no consumer ever attached), `deactivate()` performs no
action at all: the state is unchanged, the trace is empty, and the splash
pipeline is left stopped instead of playing — contradicting the claim that
deactivation always leaves the splash pipeline playing. -/
theorem C1_deactivate_skips_splash_when_input_never_built :
    (run cfgAll (initSt 0)
       [Op.outputMsg (GstMessage.stateChanged true GstState.ready GstState.paused),
        Op.splashMsg GstMessage.error]).inputC = false ∧
    (run cfgAll (initSt 0)
       [Op.outputMsg (GstMessage.stateChanged true GstState.ready GstState.paused),
        Op.splashMsg GstMessage.error]).splashC = true ∧
    input_pipeline_disable
       (run cfgAll (initSt 0)
         [Op.outputMsg (GstMessage.stateChanged true GstState.ready GstState.paused),
          Op.splashMsg GstMessage.error])
      = (run cfgAll (initSt 0)
          [Op.outputMsg (GstMessage.stateChanged true GstState.ready GstState.paused),
           Op.splashMsg GstMessage.error], []) ∧
    (input_pipeline_disable
       (run cfgAll (initSt 0)
         [Op.outputMsg (GstMessage.stateChanged true GstState.ready GstState.paused),
          Op.splashMsg GstMessage.error])).1.splashS ≠ GstState.playing := by
  decide

/-- C5 counterexample: at a reachable state in which the input pipeline is
playing, an EOS message on the input pipeline's bus is NOT handled like an
error: `backend_pipeline_bus_call` falls into its `default` case, changes
nothing and emits no action, leaving the input pipeline playing rather than
setting it to the stopped state. -/
theorem C5_eos_not_handled_as_error :
    (run cfgAll (initSt 0) scenarioActivateOps).inputS = GstState.playing ∧
    backend_pipeline_bus_call Slot.input GstMessage.eos
        (run cfgAll (initSt 0) scenarioActivateOps)
      = (run cfgAll (initSt 0) scenarioActivateOps, []) ∧
    (backend_pipeline_bus_call Slot.input GstMessage.eos
        (run cfgAll (initSt 0) scenarioActivateOps)).1.inputS
      = GstState.playing := by
  decide

/-- C5 (amended): on the input and splash pipelines' buses, an end-of-stream
notification is ignored (it falls into `backend_pipeline_bus_call`'s default
case, with no state change and no action), while an error notification sets
the owning pipeline to the stopped state. -/
theorem C5_backend_eos_ignored_error_stops (s : St) :
    backend_pipeline_bus_call Slot.input GstMessage.eos s = (s, []) ∧
    backend_pipeline_bus_call Slot.splash GstMessage.eos s = (s, []) ∧
    (backend_pipeline_bus_call Slot.input GstMessage.error s).1
      = { s with inputS := GstState.null } ∧
    (backend_pipeline_bus_call Slot.splash GstMessage.error s).1
      = { s with splashS := GstState.null } := by
  exact ⟨rfl, rfl, rfl, rfl⟩

/-- C6: an error on the input (resp. splash) pipeline's bus stops only that
pipeline — the resulting state differs from `s` only in that pipeline's
element state, so the output pipeline's state (and the run loop) are
untouched — while an error or EOS on the output pipeline's bus quits the main
loop. -/
theorem C6_error_isolation (c : Cfg) (s : St) :
    (backend_pipeline_bus_call Slot.input GstMessage.error s).1
      = { s with inputS := GstState.null } ∧
    (backend_pipeline_bus_call Slot.input GstMessage.error s).1.outputS
      = s.outputS ∧
    (backend_pipeline_bus_call Slot.input GstMessage.error s).1.loopQuit
      = s.loopQuit ∧
    (backend_pipeline_bus_call Slot.splash GstMessage.error s).1
      = { s with splashS := GstState.null } ∧
    (backend_pipeline_bus_call Slot.splash GstMessage.error s).1.outputS
      = s.outputS ∧
    (output_pipeline_bus_call c GstMessage.error s).1.loopQuit = true ∧
    (output_pipeline_bus_call c GstMessage.eos s).1.loopQuit = true ∧
    Act.quitLoop ∈ (output_pipeline_bus_call c GstMessage.error s).2 ∧
    Act.quitLoop ∈ (output_pipeline_bus_call c GstMessage.eos s).2 := by
  refine ⟨rfl, rfl, rfl, rfl, rfl, rfl, rfl, ?_, ?_⟩ <;>
    simp [output_pipeline_bus_call]

/-- C9: both lifecycle operations are idempotent at the level of the whole
daemon state: running `input_pipeline_enable` (resp. `input_pipeline_disable`)
twice in a row from any state yields exactly the state obtained by running it
once. -/
theorem C9_activate_deactivate_idempotent (c : Cfg) (s : St) :
    (input_pipeline_enable c (input_pipeline_enable c s).1).1
      = (input_pipeline_enable c s).1 ∧
    (input_pipeline_disable (input_pipeline_disable s).1).1
      = (input_pipeline_disable s).1 := by
  constructor
  · cases hsc : s.splashC <;> cases hic : s.inputC <;>
      cases hso : c.splashOk <;> cases hio : c.inputOk <;>
        simp [input_pipeline_enable, splash_pipeline_get, input_pipeline_get,
              hsc, hic, hso, hio]
  · cases hic : s.inputC <;> cases hsc : s.splashC <;>
      simp [input_pipeline_disable, hic, hsc]

/-- C3: whenever the input and splash descriptions are constructible (the
normal case), `input_pipeline_enable` leaves the input pipeline existing and
playing and the splash pipeline existing and stopped, and in its action trace
the `set_state(splash, NULL)` call occurs strictly before the
`set_state(input, PLAYING)` call. -/
theorem C3_activate_stops_splash_then_starts_input (c : Cfg) (s : St)
    (hin : c.inputOk = true) (hsp : c.splashOk = true) :
    (input_pipeline_enable c s).1.inputC = true ∧
    (input_pipeline_enable c s).1.inputS = GstState.playing ∧
    (input_pipeline_enable c s).1.splashC = true ∧
    (input_pipeline_enable c s).1.splashS = GstState.null ∧
    Act.setState Slot.splash GstState.null ∈ (input_pipeline_enable c s).2 ∧
    Act.setState Slot.input GstState.playing ∈ (input_pipeline_enable c s).2 ∧
    (input_pipeline_enable c s).2.indexOf (Act.setState Slot.splash GstState.null)
      < (input_pipeline_enable c s).2.indexOf
          (Act.setState Slot.input GstState.playing) := by
  rw [input_pipeline_enable_fst, input_pipeline_enable_tr]
  cases hsc : s.splashC <;> cases hic : s.inputC <;>
    simp +decide [hin, hsp]

/-- C3 witness: the theorem instantiated at the all-success configuration and
the startup state. -/
theorem C3_activate_witness :
    (input_pipeline_enable cfgAll (initSt 0)).1.inputC = true ∧
    (input_pipeline_enable cfgAll (initSt 0)).1.inputS = GstState.playing ∧
    (input_pipeline_enable cfgAll (initSt 0)).1.splashC = true ∧
    (input_pipeline_enable cfgAll (initSt 0)).1.splashS = GstState.null ∧
    Act.setState Slot.splash GstState.null
      ∈ (input_pipeline_enable cfgAll (initSt 0)).2 ∧
    Act.setState Slot.input GstState.playing
      ∈ (input_pipeline_enable cfgAll (initSt 0)).2 ∧
    (input_pipeline_enable cfgAll (initSt 0)).2.indexOf
        (Act.setState Slot.splash GstState.null)
      < (input_pipeline_enable cfgAll (initSt 0)).2.indexOf
          (Act.setState Slot.input GstState.playing) :=
  C3_activate_stops_splash_then_starts_input cfgAll (initSt 0) rfl rfl

theorem dispatchesOf_nil : dispatchesOf [] = [] := rfl

theorem dispatchesOf_append (l1 l2 : List Act) :
    dispatchesOf (l1 ++ l2) = dispatchesOf l1 ++ dispatchesOf l2 :=
  List.filter_append l1 l2

theorem dispatchesOf_cons_activate (tr : List Act) :
    dispatchesOf (Act.dispatchActivate :: tr)
      = Act.dispatchActivate :: dispatchesOf tr := by
  simp [dispatchesOf]

theorem dispatchesOf_cons_deactivate (tr : List Act) :
    dispatchesOf (Act.dispatchDeactivate :: tr)
      = Act.dispatchDeactivate :: dispatchesOf tr := by
  simp [dispatchesOf]

theorem dispatchesOf_enable (c : Cfg) (s : St) :
    dispatchesOf (input_pipeline_enable c s).2 = [] := by
  rw [input_pipeline_enable_tr]
  cases hsc : s.splashC <;> cases hic : s.inputC <;>
    cases hso : c.splashOk <;> cases hio : c.inputOk <;> decide

theorem dispatchesOf_disable (s : St) :
    dispatchesOf (input_pipeline_disable s).2 = [] := by
  rw [input_pipeline_disable_tr]
  cases hic : s.inputC <;> cases hsc : s.splashC <;> decide

theorem drainEvents_usage_pending_step (c : Cfg) (s : St) (e : V4l2Event)
    (rest : List (Option V4l2Event))
    (hTe : e.etype = V4L2_EVENT_PRI_CLIENT_USAGE) (hPe : e.pending = true) :
    drainEvents c s (some e :: rest) =
      ((drainEvents c (dispatchStep c s e) rest).1,
       (if e.count ≠ 0 then Act.dispatchActivate :: (input_pipeline_enable c s).2
        else Act.dispatchDeactivate :: (input_pipeline_disable s).2)
         ++ (drainEvents c (dispatchStep c s e) rest).2) := by
  by_cases h0 : e.count = 0 <;>
    simp [drainEvents, dispatchStep, hTe, hPe, h0]

theorem drain_batch (c : Cfg) (batch : List V4l2Event) :
    ∀ s : St,
      (∀ e ∈ batch, e.etype = V4L2_EVENT_PRI_CLIENT_USAGE) →
      (∀ e ∈ batch, e.pending = true) →
      (drainEvents c s (batch.map some ++ [none])).1
          = batch.foldl (dispatchStep c) s ∧
      dispatchesOf (drainEvents c s (batch.map some ++ [none])).2
        = batch.map (fun e => if e.count ≠ 0 then Act.dispatchActivate
                              else Act.dispatchDeactivate) := by
  induction batch with
  | nil =>
    intro s _ _
    exact ⟨rfl, rfl⟩
  | cons e rest ih =>
    intro s hT hP
    have hTe : e.etype = V4L2_EVENT_PRI_CLIENT_USAGE :=
      hT e (List.mem_cons_self e rest)
    have hPe : e.pending = true := hP e (List.mem_cons_self e rest)
    have hT' : ∀ x ∈ rest, x.etype = V4L2_EVENT_PRI_CLIENT_USAGE :=
      fun x hx => hT x (List.mem_cons_of_mem e hx)
    have hP' : ∀ x ∈ rest, x.pending = true :=
      fun x hx => hP x (List.mem_cons_of_mem e hx)
    obtain ⟨ih1, ih2⟩ := ih (dispatchStep c s e) hT' hP'
    rw [List.map_cons, List.cons_append,
        drainEvents_usage_pending_step c s e _ hTe hPe]
    refine ⟨by simpa using ih1, ?_⟩
    by_cases h0 : e.count = 0 <;>
      simp [h0, dispatchesOf_append, dispatchesOf_cons_activate,
            dispatchesOf_cons_deactivate, dispatchesOf_enable,
            dispatchesOf_disable, ih2]

/-- C2: draining a fully pending batch of client-usage events dispatches
exactly one of activate / deactivate per dequeued event — activate iff the
reported count is nonzero — and the resulting state is the left fold of those
dispatches, so it reflects the last event of the batch; in particular, in the
concrete scenario that delivers `count=2` then `count=0` in one drained batch,
the final state has the splash pipeline playing and the input pipeline
constructed but stopped. -/
theorem C2_drain_dispatches_per_event (c : Cfg) (s : St)
    (batch : List V4l2Event)
    (hT : ∀ e ∈ batch, e.etype = V4L2_EVENT_PRI_CLIENT_USAGE)
    (hP : ∀ e ∈ batch, e.pending = true) :
    ((drainEvents c s (batch.map some ++ [none])).1
        = batch.foldl (dispatchStep c) s ∧
     dispatchesOf (drainEvents c s (batch.map some ++ [none])).2
        = batch.map (fun e => if e.count ≠ 0 then Act.dispatchActivate
                              else Act.dispatchDeactivate)) ∧
    ((run cfgAll (initSt 0) scenarioBatchOps).splashS = GstState.playing ∧
     (run cfgAll (initSt 0) scenarioBatchOps).inputC = true ∧
     (run cfgAll (initSt 0) scenarioBatchOps).inputS = GstState.null) := by
  exact ⟨drain_batch c batch s hT hP, by decide⟩

/-- C2 witness: the theorem instantiated at the two-event batch
`count=2, count=0`, both of client-usage type and marked pending. -/
theorem C2_drain_witness :
    ((drainEvents cfgAll (initSt 0)
        (([{ etype := V4L2_EVENT_PRI_CLIENT_USAGE, count := 2, pending := true },
           { etype := V4L2_EVENT_PRI_CLIENT_USAGE, count := 0, pending := true }] :
            List V4l2Event).map some ++ [none])).1
        = ([{ etype := V4L2_EVENT_PRI_CLIENT_USAGE, count := 2, pending := true },
            { etype := V4L2_EVENT_PRI_CLIENT_USAGE, count := 0, pending := true }] :
             List V4l2Event).foldl (dispatchStep cfgAll) (initSt 0) ∧
     dispatchesOf (drainEvents cfgAll (initSt 0)
        (([{ etype := V4L2_EVENT_PRI_CLIENT_USAGE, count := 2, pending := true },
           { etype := V4L2_EVENT_PRI_CLIENT_USAGE, count := 0, pending := true }] :
            List V4l2Event).map some ++ [none])).2
        = ([{ etype := V4L2_EVENT_PRI_CLIENT_USAGE, count := 2, pending := true },
            { etype := V4L2_EVENT_PRI_CLIENT_USAGE, count := 0, pending := true }] :
             List V4l2Event).map
            (fun e => if e.count ≠ 0 then Act.dispatchActivate
                      else Act.dispatchDeactivate)) ∧
    ((run cfgAll (initSt 0) scenarioBatchOps).splashS = GstState.playing ∧
     (run cfgAll (initSt 0) scenarioBatchOps).inputC = true ∧
     (run cfgAll (initSt 0) scenarioBatchOps).inputS = GstState.null) :=
  C2_drain_dispatches_per_event cfgAll (initSt 0)
    [{ etype := V4L2_EVENT_PRI_CLIENT_USAGE, count := 2, pending := true },
     { etype := V4L2_EVENT_PRI_CLIENT_USAGE, count := 0, pending := true }]
    (by decide) (by decide)

theorem runTrace_fst (c : Cfg) (ops : List Op) :
    ∀ s, (runTrace c s ops).1 = run c s ops := by
  induction ops with
  | nil => intro s; rfl
  | cons op ops ih => intro s; simp [runTrace, run, ih]

theorem output_bus_nosub_inv (c : Cfg) (m : GstMessage) (s : St)
    (h : c.subscribeOk = false) (hp : s.pollActive = false)
    (hi : s.inputC = false) (hs : s.inputS = GstState.null) :
    (output_pipeline_bus_call c m s).1.pollActive = false ∧
    (output_pipeline_bus_call c m s).1.inputC = false ∧
    (output_pipeline_bus_call c m s).1.inputS = GstState.null ∧
    Act.dispatchActivate ∉ (output_pipeline_bus_call c m s).2 ∧
    Act.dispatchDeactivate ∉ (output_pipeline_bus_call c m s).2 := by
  cases m with
  | stateChanged sp o n =>
    cases sp <;> cases o <;> cases n <;>
      cases hsc : s.splashC <;> cases hso : c.splashOk <;>
        cases hsv : c.hasV4l2sink <;>
          simp [output_pipeline_bus_call, splash_pipeline_get, hsc, hso, hsv,
                h, hp, hi, hs]
  | eos => simp [output_pipeline_bus_call, hp, hi, hs]
  | error => simp [output_pipeline_bus_call, hp, hi, hs]
  | other => simp [output_pipeline_bus_call, hp, hi, hs]

theorem applyOp_nosub_inv (c : Cfg) (op : Op) (s : St)
    (h : c.subscribeOk = false) (hp : s.pollActive = false)
    (hi : s.inputC = false) (hs : s.inputS = GstState.null) :
    (applyOp c s op).1.pollActive = false ∧
    (applyOp c s op).1.inputC = false ∧
    (applyOp c s op).1.inputS = GstState.null ∧
    Act.dispatchActivate ∉ (applyOp c s op).2 ∧
    Act.dispatchDeactivate ∉ (applyOp c s op).2 := by
  cases op with
  | v4l2Events hasPri evts => simp [applyOp, hp, hi, hs]
  | outputMsg m =>
    cases how : s.outputWatch <;> simp only [applyOp, how]
    · simp [hp, hi, hs]
    · simp only [if_true]
      exact output_bus_nosub_inv c m s h hp hi hs
  | inputMsg m =>
    cases hiw : s.inputWatch <;> cases m <;>
      simp [applyOp, backend_pipeline_bus_call, setSlotState, hiw, hp, hi, hs]
  | splashMsg m =>
    cases hsw : s.splashWatch <;> cases m <;>
      simp [applyOp, backend_pipeline_bus_call, setSlotState, hsw, hp, hi, hs]

theorem run_nosub_inv (c : Cfg) (ops : List Op) (h : c.subscribeOk = false) :
    ∀ s : St, s.pollActive = false → s.inputC = false →
      s.inputS = GstState.null →
      (run c s ops).pollActive = false ∧
      (run c s ops).inputC = false ∧
      (run c s ops).inputS = GstState.null ∧
      Act.dispatchActivate ∉ (runTrace c s ops).2 ∧
      Act.dispatchDeactivate ∉ (runTrace c s ops).2 := by
  induction ops with
  | nil =>
    intro s hp hi hs
    exact ⟨hp, hi, hs, by simp [runTrace], by simp [runTrace]⟩
  | cons op ops ih =>
    intro s hp hi hs
    obtain ⟨hp1, hi1, hs1, hna1, hnd1⟩ := applyOp_nosub_inv c op s h hp hi hs
    obtain ⟨hp2, hi2, hs2, hna2, hnd2⟩ := ih (applyOp c s op).1 hp1 hi1 hs1
    refine ⟨hp2, hi2, hs2, ?_, ?_⟩ <;>
      simp [run, runTrace, List.mem_append, hna1, hnd1, hna2, hnd2]

/-- C4 counterexample: with a kernel that rejects the event subscription, the
startup scenario (output READY → PAUSED → PLAYING, then a readiness
notification with a pending client-usage event) logs the "not supported"
warning, never installs the fd poll source — and leaves the system
splash-active, not input-active: the input pipeline is never constructed, so
it is not playing, while the splash pipeline is playing. -/
theorem C4_not_input_active_on_subscribe_failure :
    (run cfgNoSub (initSt 0) scenarioBatchOps).pollActive = false ∧
    Act.warnUnsupported ∈ (runTrace cfgNoSub (initSt 0) scenarioBatchOps).2 ∧
    Act.dispatchActivate ∉ (runTrace cfgNoSub (initSt 0) scenarioBatchOps).2 ∧
    (run cfgNoSub (initSt 0) scenarioBatchOps).inputC = false ∧
    (run cfgNoSub (initSt 0) scenarioBatchOps).inputS ≠ GstState.playing ∧
    (run cfgNoSub (initSt 0) scenarioBatchOps).splashS = GstState.playing := by
  decide

/-- C4 (amended): if the kernel event subscription fails, the daemon logs a
warning and never installs the descriptor poll source, so the drain loop is
never attempted and no activate / deactivate is ever dispatched; consequently
the input pipeline is never constructed or started — the system stays without
on-demand switching (splash-active after startup), not input-active. -/
theorem C4_subscribe_failure_no_switching (c : Cfg) (t0 : Nat) (ops : List Op)
    (h : c.subscribeOk = false) :
    (run c (initSt t0) ops).pollActive = false ∧
    (run c (initSt t0) ops).inputC = false ∧
    (run c (initSt t0) ops).inputS = GstState.null ∧
    Act.dispatchActivate ∉ (runTrace c (initSt t0) ops).2 ∧
    Act.dispatchDeactivate ∉ (runTrace c (initSt t0) ops).2 ∧
    Act.warnUnsupported ∈
      (output_pipeline_bus_call cfgNoSub
        (GstMessage.stateChanged true GstState.paused GstState.playing)
        (run cfgNoSub (initSt 0)
          [Op.outputMsg
            (GstMessage.stateChanged true GstState.ready GstState.paused)])).2 ∧
    (run cfgNoSub (initSt 0) scenarioBatchOps).splashS = GstState.playing := by
  refine ⟨?_, ?_, ?_, ?_, ?_, by decide, by decide⟩ <;>
    have := run_nosub_inv c ops h (initSt t0) rfl rfl rfl <;> tauto

/-- C4 witness: the amended theorem instantiated at the all-success-but-
subscription configuration, base time 0 and the batch scenario. -/
theorem C4_subscribe_failure_witness :
    (run cfgNoSub (initSt 0) scenarioBatchOps).pollActive = false ∧
    (run cfgNoSub (initSt 0) scenarioBatchOps).inputC = false ∧
    (run cfgNoSub (initSt 0) scenarioBatchOps).inputS = GstState.null ∧
    Act.dispatchActivate ∉ (runTrace cfgNoSub (initSt 0) scenarioBatchOps).2 ∧
    Act.dispatchDeactivate ∉
      (runTrace cfgNoSub (initSt 0) scenarioBatchOps).2 ∧
    Act.warnUnsupported ∈
      (output_pipeline_bus_call cfgNoSub
        (GstMessage.stateChanged true GstState.paused GstState.playing)
        (run cfgNoSub (initSt 0)
          [Op.outputMsg
            (GstMessage.stateChanged true GstState.ready GstState.paused)])).2 ∧
    (run cfgNoSub (initSt 0) scenarioBatchOps).splashS = GstState.playing :=
  C4_subscribe_failure_no_switching cfgNoSub 0 scenarioBatchOps rfl

theorem enable_baseInv (c : Cfg) (s : St) (h : baseInv s) :
    baseInv (input_pipeline_enable c s).1 := by
  obtain ⟨h1, h2⟩ := h
  rw [input_pipeline_enable_fst]
  cases hic : s.inputC <;> cases hio : c.inputOk <;>
    cases hsc : s.splashC <;> cases hso : c.splashOk <;>
      simp_all [baseInv]

theorem disable_baseInv (s : St) (h : baseInv s) :
    baseInv (input_pipeline_disable s).1 := by
  obtain ⟨h1, h2⟩ := h
  rw [input_pipeline_disable_fst]
  cases hic : s.inputC <;> cases hsc : s.splashC <;> simp_all [baseInv]

theorem drainEvents_fst_cons (c : Cfg) (s : St) (ev : V4l2Event)
    (rest : List (Option V4l2Event)) :
    (drainEvents c s (some ev :: rest)).1 =
      if ev.pending then
        (drainEvents c
          (if ev.etype = V4L2_EVENT_PRI_CLIENT_USAGE then
             (if ev.count ≠ 0 then (input_pipeline_enable c s).1
              else (input_pipeline_disable s).1)
           else s) rest).1
      else
        (if ev.etype = V4L2_EVENT_PRI_CLIENT_USAGE then
           (if ev.count ≠ 0 then (input_pipeline_enable c s).1
            else (input_pipeline_disable s).1)
         else s) := by
  by_cases hT : ev.etype = V4L2_EVENT_PRI_CLIENT_USAGE <;>
    by_cases h0 : ev.count ≠ 0 <;> cases hp : ev.pending <;>
      simp [drainEvents, hT, h0, hp]

theorem drainEvents_baseInv (c : Cfg) (evts : List (Option V4l2Event)) :
    ∀ s : St, baseInv s → baseInv (drainEvents c s evts).1 := by
  induction evts with
  | nil => intro s h; exact h
  | cons e rest ih =>
    intro s h
    cases e with
    | none => exact h
    | some ev =>
      have hs1 : baseInv (if ev.etype = V4L2_EVENT_PRI_CLIENT_USAGE then
          (if ev.count ≠ 0 then (input_pipeline_enable c s).1
           else (input_pipeline_disable s).1) else s) := by
        split
        · split
          · exact enable_baseInv c s h
          · exact disable_baseInv s h
        · exact h
      rw [drainEvents_fst_cons]
      cases hp : ev.pending
      · simpa using hs1
      · simpa using ih _ hs1

theorem output_bus_nonsplash_fields (c : Cfg) (m : GstMessage) (s : St) :
    (output_pipeline_bus_call c m s).1.inputC = s.inputC ∧
    (output_pipeline_bus_call c m s).1.inputBase = s.inputBase ∧
    (output_pipeline_bus_call c m s).1.outputBase = s.outputBase := by
  cases m with
  | stateChanged sp o n =>
    cases sp <;> cases o <;> cases n <;>
      cases hsc : s.splashC <;> cases hso : c.splashOk <;>
        cases hsv : c.hasV4l2sink <;> cases hsub : c.subscribeOk <;>
          cases hpa : s.pollActive <;>
            simp [output_pipeline_bus_call, splash_pipeline_get, hsc, hso,
                  hsv, hsub, hpa]
  | eos => exact ⟨rfl, rfl, rfl⟩
  | error => exact ⟨rfl, rfl, rfl⟩
  | other => exact ⟨rfl, rfl, rfl⟩

theorem output_bus_splash_fields (c : Cfg) (m : GstMessage) (s : St) :
    ((output_pipeline_bus_call c m s).1.splashC = s.splashC ∧
     (output_pipeline_bus_call c m s).1.splashBase = s.splashBase) ∨
    ((output_pipeline_bus_call c m s).1.splashC = true ∧
     (output_pipeline_bus_call c m s).1.splashBase = s.outputBase) := by
  cases m with
  | stateChanged sp o n =>
    cases sp <;> cases o <;> cases n <;>
      cases hsc : s.splashC <;> cases hso : c.splashOk <;>
        cases hsv : c.hasV4l2sink <;> cases hsub : c.subscribeOk <;>
          cases hpa : s.pollActive <;>
            simp [output_pipeline_bus_call, splash_pipeline_get, hsc, hso,
                  hsv, hsub, hpa]
  | eos => left; exact ⟨rfl, rfl⟩
  | error => left; exact ⟨rfl, rfl⟩
  | other => left; exact ⟨rfl, rfl⟩

theorem output_bus_baseInv (c : Cfg) (m : GstMessage) (s : St)
    (h : baseInv s) : baseInv (output_pipeline_bus_call c m s).1 := by
  obtain ⟨hic, hib, hob⟩ := output_bus_nonsplash_fields c m s
  obtain ⟨h1, h2⟩ := h
  constructor
  · intro hc
    rw [hib, hob]
    exact h1 (by rw [← hic]; exact hc)
  · rcases output_bus_splash_fields c m s with ⟨hsc, hsb⟩ | ⟨_, hsb⟩
    · intro hc
      rw [hsb, hob]
      exact h2 (by rw [← hsc]; exact hc)
    · intro _
      rw [hsb, hob]

theorem backend_baseInv (sl : Slot) (m : GstMessage) (s : St)
    (h : baseInv s) : baseInv (backend_pipeline_bus_call sl m s).1 := by
  obtain ⟨h1, h2⟩ := h
  cases m <;> cases sl <;>
    simp_all [backend_pipeline_bus_call, setSlotState, baseInv]

theorem applyOp_baseInv (c : Cfg) (s : St) (op : Op) (h : baseInv s) :
    baseInv (applyOp c s op).1 := by
  cases op with
  | v4l2Events hasPri evts =>
    by_cases hpa : s.pollActive
    · cases hasPri
      · simpa [applyOp, hpa, v4l2sink_event_callback] using h
      · simpa [applyOp, hpa, v4l2sink_event_callback] using
          drainEvents_baseInv c evts s h
    · simpa [applyOp, hpa] using h
  | outputMsg m =>
    by_cases hw : s.outputWatch
    · simpa [applyOp, hw] using output_bus_baseInv c m s h
    · simpa [applyOp, hw] using h
  | inputMsg m =>
    by_cases hw : s.inputWatch
    · simpa [applyOp, hw] using backend_baseInv Slot.input m s h
    · simpa [applyOp, hw] using h
  | splashMsg m =>
    by_cases hw : s.splashWatch
    · simpa [applyOp, hw] using backend_baseInv Slot.splash m s h
    · simpa [applyOp, hw] using h

theorem run_baseInv (c : Cfg) (ops : List Op) :
    ∀ s : St, baseInv s → baseInv (run c s ops) := by
  induction ops with
  | nil => intro s h; exact h
  | cons op ops ih => intro s h; exact ih _ (applyOp_baseInv c s op h)

/-- C7: the synchronization anchor is copied, never generated: whenever
`backend_pipeline_create` constructs the input (resp. splash) pipeline, the
new pipeline's base time is exactly the output pipeline's base time, and in
every state reachable from startup by any sequence of event-loop callbacks,
every constructed non-output pipeline still has a base time equal to the
output pipeline's. -/
theorem C7_base_time_propagation (c : Cfg) (t0 : Nat) (ops : List Op)
    (s : St) (hi : s.inputC = false) (hio : c.inputOk = true)
    (hs : s.splashC = false) (hso : c.splashOk = true) :
    baseInv (run c (initSt t0) ops) ∧
    (input_pipeline_get c s).1.inputBase = s.outputBase ∧
    (input_pipeline_get c s).1.outputBase = s.outputBase ∧
    (splash_pipeline_get c s).1.splashBase = s.outputBase ∧
    (splash_pipeline_get c s).1.outputBase = s.outputBase := by
  refine ⟨run_baseInv c ops (initSt t0) (by simp [baseInv, initSt]), ?_, ?_, ?_, ?_⟩ <;>
    simp [input_pipeline_get_fst, splash_pipeline_get_fst, hi, hio, hs, hso]

/-- C7 witness: the theorem instantiated at the all-success configuration,
base time 7, the activation scenario and the startup state; the first conjunct
shows the invariant is not vacuous there (the input pipeline exists). -/
theorem C7_base_time_witness :
    (run cfgAll (initSt 7) scenarioActivateOps).inputC = true ∧
    (baseInv (run cfgAll (initSt 7) scenarioActivateOps) ∧
     (input_pipeline_get cfgAll (initSt 7)).1.inputBase = (initSt 7).outputBase ∧
     (input_pipeline_get cfgAll (initSt 7)).1.outputBase = (initSt 7).outputBase ∧
     (splash_pipeline_get cfgAll (initSt 7)).1.splashBase = (initSt 7).outputBase ∧
     (splash_pipeline_get cfgAll (initSt 7)).1.outputBase = (initSt 7).outputBase) :=
  ⟨by decide,
   C7_base_time_propagation cfgAll 7 scenarioActivateOps (initSt 7)
     rfl rfl rfl rfl⟩

theorem countConstruct_nil (sl : Slot) : countConstruct sl [] = 0 := rfl

theorem countConstruct_append (sl : Slot) (l1 l2 : List Act) :
    countConstruct sl (l1 ++ l2)
      = countConstruct sl l1 + countConstruct sl l2 := by
  simp [countConstruct, List.count_append]

theorem countConstruct_cons_dispatchActivate (sl : Slot) (tr : List Act) :
    countConstruct sl (Act.dispatchActivate :: tr) = countConstruct sl tr := by
  cases sl <;> simp +decide [countConstruct, List.count_cons]

theorem countConstruct_cons_dispatchDeactivate (sl : Slot) (tr : List Act) :
    countConstruct sl (Act.dispatchDeactivate :: tr) = countConstruct sl tr := by
  cases sl <;> simp +decide [countConstruct, List.count_cons]

theorem b2n_le_one (b : Bool) : b2n b ≤ 1 := by
  cases b <;> simp [b2n]

theorem enable_construct_count (c : Cfg) (s : St) :
    countConstruct Slot.input (input_pipeline_enable c s).2 + b2n s.inputC
      = b2n (input_pipeline_enable c s).1.inputC ∧
    countConstruct Slot.splash (input_pipeline_enable c s).2 + b2n s.splashC
      = b2n (input_pipeline_enable c s).1.splashC := by
  simp only [input_pipeline_enable_tr, input_pipeline_enable_fst]
  cases hic : s.inputC <;> cases hio : c.inputOk <;>
    cases hsc : s.splashC <;> cases hso : c.splashOk <;>
      simp +decide [hic, hio, hsc, hso, countConstruct, b2n]

theorem disable_construct_count (s : St) :
    countConstruct Slot.input (input_pipeline_disable s).2 = 0 ∧
    countConstruct Slot.splash (input_pipeline_disable s).2 = 0 ∧
    (input_pipeline_disable s).1.inputC = s.inputC ∧
    (input_pipeline_disable s).1.splashC = s.splashC := by
  simp only [input_pipeline_disable_tr, input_pipeline_disable_fst]
  cases hic : s.inputC <;> cases hsc : s.splashC <;>
    simp +decide [hic, hsc, countConstruct]

theorem drainEvents_cons_some (c : Cfg) (s : St) (ev : V4l2Event)
    (rest : List (Option V4l2Event)) :
    drainEvents c s (some ev :: rest) =
      (fun p1 =>
        if ev.pending then
          ((drainEvents c p1.1 rest).1, p1.2 ++ (drainEvents c p1.1 rest).2)
        else p1)
      (if ev.etype = V4L2_EVENT_PRI_CLIENT_USAGE then
         (if ev.count ≠ 0 then
            ((input_pipeline_enable c s).1,
             Act.dispatchActivate :: (input_pipeline_enable c s).2)
          else
            ((input_pipeline_disable s).1,
             Act.dispatchDeactivate :: (input_pipeline_disable s).2))
       else (s, [])) := by
  by_cases hT : ev.etype = V4L2_EVENT_PRI_CLIENT_USAGE <;>
    by_cases h0 : ev.count ≠ 0 <;> cases hp : ev.pending <;>
      simp [drainEvents, hT, h0, hp]

theorem drain_construct_count (c : Cfg) (evts : List (Option V4l2Event)) :
    ∀ s : St,
      countConstruct Slot.input (drainEvents c s evts).2 + b2n s.inputC
        = b2n (drainEvents c s evts).1.inputC ∧
      countConstruct Slot.splash (drainEvents c s evts).2 + b2n s.splashC
        = b2n (drainEvents c s evts).1.splashC := by
  induction evts with
  | nil => intro s; simp [drainEvents, countConstruct_nil]
  | cons e rest ih =>
    intro s
    cases e with
    | none => simp [drainEvents, countConstruct_nil]
    | some ev =>
      by_cases hT : ev.etype = V4L2_EVENT_PRI_CLIENT_USAGE
      · by_cases h0 : ev.count ≠ 0
        · have hstep : drainEvents c s (some ev :: rest) =
              (if ev.pending then
                ((drainEvents c (input_pipeline_enable c s).1 rest).1,
                 (Act.dispatchActivate :: (input_pipeline_enable c s).2)
                   ++ (drainEvents c (input_pipeline_enable c s).1 rest).2)
               else ((input_pipeline_enable c s).1,
                     Act.dispatchActivate :: (input_pipeline_enable c s).2)) := by
            rw [drainEvents_cons_some]
            simp [hT, h0]
          obtain ⟨e1, e2⟩ := enable_construct_count c s
          obtain ⟨i1, i2⟩ := ih (input_pipeline_enable c s).1
          rw [hstep]
          cases hp : ev.pending <;>
            constructor <;>
              simp [countConstruct_append,
                    countConstruct_cons_dispatchActivate] <;>
                omega
        · have hstep : drainEvents c s (some ev :: rest) =
              (if ev.pending then
                ((drainEvents c (input_pipeline_disable s).1 rest).1,
                 (Act.dispatchDeactivate :: (input_pipeline_disable s).2)
                   ++ (drainEvents c (input_pipeline_disable s).1 rest).2)
               else ((input_pipeline_disable s).1,
                     Act.dispatchDeactivate :: (input_pipeline_disable s).2)) := by
            rw [drainEvents_cons_some]
            simp [hT, h0]
          obtain ⟨d1, d2, d3, d4⟩ := disable_construct_count s
          have d3n : b2n (input_pipeline_disable s).1.inputC = b2n s.inputC := by
            rw [d3]
          have d4n : b2n (input_pipeline_disable s).1.splashC
              = b2n s.splashC := by
            rw [d4]
          obtain ⟨i1, i2⟩ := ih (input_pipeline_disable s).1
          rw [hstep]
          cases hp : ev.pending <;>
            constructor <;>
              simp [countConstruct_append,
                    countConstruct_cons_dispatchDeactivate, d1, d2] <;>
                omega
      · have hstep : drainEvents c s (some ev :: rest) =
            (if ev.pending then
              ((drainEvents c s rest).1, (drainEvents c s rest).2)
             else (s, [])) := by
          rw [drainEvents_cons_some]
          simp [hT]
        obtain ⟨i1, i2⟩ := ih s
        rw [hstep]
        cases hp : ev.pending <;>
          constructor <;> simp [countConstruct_nil] <;> omega

set_option maxHeartbeats 1000000 in
theorem output_bus_construct_count (c : Cfg) (m : GstMessage) (s : St) :
    countConstruct Slot.input (output_pipeline_bus_call c m s).2 = 0 ∧
    (output_pipeline_bus_call c m s).1.inputC = s.inputC ∧
    countConstruct Slot.splash (output_pipeline_bus_call c m s).2
        + b2n s.splashC
      = b2n (output_pipeline_bus_call c m s).1.splashC := by
  cases m with
  | stateChanged sp o n =>
    cases sp <;> cases o <;> cases n <;>
      cases hsc : s.splashC <;> cases hso : c.splashOk <;>
        cases hsv : c.hasV4l2sink <;> cases hsub : c.subscribeOk <;>
          cases hpa : s.pollActive <;>
            simp +decide [output_pipeline_bus_call, splash_pipeline_get, hsc,
                          hso, hsv, hsub, hpa, countConstruct, b2n]
  | eos =>
    exact ⟨rfl, rfl, by simp +decide [output_pipeline_bus_call, countConstruct]⟩
  | error =>
    exact ⟨rfl, rfl, by simp +decide [output_pipeline_bus_call, countConstruct]⟩
  | other =>
    exact ⟨rfl, rfl, by simp +decide [output_pipeline_bus_call, countConstruct]⟩

theorem backend_construct_count (sl : Slot) (m : GstMessage) (s : St) :
    countConstruct Slot.input (backend_pipeline_bus_call sl m s).2 = 0 ∧
    countConstruct Slot.splash (backend_pipeline_bus_call sl m s).2 = 0 ∧
    (backend_pipeline_bus_call sl m s).1.inputC = s.inputC ∧
    (backend_pipeline_bus_call sl m s).1.splashC = s.splashC := by
  cases m <;> cases sl <;>
    simp +decide [backend_pipeline_bus_call, setSlotState, countConstruct]

theorem applyOp_construct_count (c : Cfg) (s : St) (op : Op) :
    countConstruct Slot.input (applyOp c s op).2 + b2n s.inputC
      = b2n (applyOp c s op).1.inputC ∧
    countConstruct Slot.splash (applyOp c s op).2 + b2n s.splashC
      = b2n (applyOp c s op).1.splashC := by
  cases op with
  | v4l2Events hasPri evts =>
    by_cases hpa : s.pollActive
    · cases hasPri
      · simp [applyOp, hpa, v4l2sink_event_callback, countConstruct_nil]
      · obtain ⟨i1, i2⟩ := drain_construct_count c evts s
        simp only [applyOp, hpa, if_true, v4l2sink_event_callback, ite_true]
        exact ⟨i1, i2⟩
    · simp [applyOp, hpa, countConstruct_nil]
  | outputMsg m =>
    by_cases hw : s.outputWatch
    · obtain ⟨o1, o2, o3⟩ := output_bus_construct_count c m s
      simp only [applyOp, hw, if_true, ite_true]
      exact ⟨by rw [o1, o2]; omega, o3⟩
    · simp [applyOp, hw, countConstruct_nil]
  | inputMsg m =>
    by_cases hw : s.inputWatch
    · obtain ⟨b1, b2, b3, b4⟩ := backend_construct_count Slot.input m s
      simp only [applyOp, hw, if_true, ite_true]
      exact ⟨by rw [b1, b3]; omega, by rw [b2, b4]; omega⟩
    · simp [applyOp, hw, countConstruct_nil]
  | splashMsg m =>
    by_cases hw : s.splashWatch
    · obtain ⟨b1, b2, b3, b4⟩ := backend_construct_count Slot.splash m s
      simp only [applyOp, hw, if_true, ite_true]
      exact ⟨by rw [b1, b3]; omega, by rw [b2, b4]; omega⟩
    · simp [applyOp, hw, countConstruct_nil]

theorem runTrace_construct_count (c : Cfg) (ops : List Op) :
    ∀ s : St,
      countConstruct Slot.input (runTrace c s ops).2 + b2n s.inputC
        = b2n (run c s ops).inputC ∧
      countConstruct Slot.splash (runTrace c s ops).2 + b2n s.splashC
        = b2n (run c s ops).splashC := by
  induction ops with
  | nil => intro s; simp [runTrace, run, countConstruct_nil]
  | cons op ops ih =>
    intro s
    obtain ⟨a1, a2⟩ := applyOp_construct_count c s op
    obtain ⟨i1, i2⟩ := ih (applyOp c s op).1
    simp only [runTrace, run, countConstruct_append]
    constructor <;> omega

/-- C8: lazy construction of the backend pipelines.  At startup neither the
input nor the splash pipeline exists; a `*_pipeline_get` on an occupied slot
returns the very same state with the same pipeline, performing no
construction; a `*_pipeline_get` whose construction fails leaves the slot
empty and records exactly the one failed attempt (so the next call retries,
by the same equation); and along any run from startup, at most one successful
construction ever happens per slot. -/
theorem C8_lazy_construction (c cBad : Cfg) (s1 s2 : St) (t0 : Nat)
    (ops : List Op)
    (hri : s1.inputC = true) (hrs : s1.splashC = true)
    (hfi : cBad.inputOk = false) (hei : s2.inputC = false)
    (hfs : cBad.splashOk = false) (hes : s2.splashC = false) :
    input_pipeline_get c s1 = (s1, true, []) ∧
    splash_pipeline_get c s1 = (s1, true, []) ∧
    input_pipeline_get cBad s2 = (s2, false, [Act.construct Slot.input false]) ∧
    splash_pipeline_get cBad s2
      = (s2, false, [Act.construct Slot.splash false]) ∧
    (initSt t0).inputC = false ∧
    (initSt t0).splashC = false ∧
    countConstruct Slot.input (runTrace c (initSt t0) ops).2 ≤ 1 ∧
    countConstruct Slot.splash (runTrace c (initSt t0) ops).2 ≤ 1 := by
  obtain ⟨r1, r2⟩ := runTrace_construct_count c ops (initSt t0)
  have hb1 := b2n_le_one (run c (initSt t0) ops).inputC
  have hb2 := b2n_le_one (run c (initSt t0) ops).splashC
  refine ⟨?_, ?_, ?_, ?_, rfl, rfl, ?_, ?_⟩
  · simp [input_pipeline_get, hri]
  · simp [splash_pipeline_get, hrs]
  · simp [input_pipeline_get, hfi, hei]
  · simp [splash_pipeline_get, hfs, hes]
  · have : b2n (initSt t0).inputC = 0 := rfl
    omega
  · have : b2n (initSt t0).splashC = 0 := rfl
    omega

/-- C8 witness: the theorem instantiated at the all-success configuration, an
all-failure configuration, a reachable state in which both backend pipelines
exist, the startup state, and the batch scenario. -/
theorem C8_lazy_construction_witness :
    input_pipeline_get cfgAll (run cfgAll (initSt 0) scenarioBatchOps)
      = (run cfgAll (initSt 0) scenarioBatchOps, true, []) ∧
    splash_pipeline_get cfgAll (run cfgAll (initSt 0) scenarioBatchOps)
      = (run cfgAll (initSt 0) scenarioBatchOps, true, []) ∧
    input_pipeline_get
        { inputOk := false, splashOk := false, hasV4l2sink := false,
          subscribeOk := false } (initSt 0)
      = (initSt 0, false, [Act.construct Slot.input false]) ∧
    splash_pipeline_get
        { inputOk := false, splashOk := false, hasV4l2sink := false,
          subscribeOk := false } (initSt 0)
      = (initSt 0, false, [Act.construct Slot.splash false]) ∧
    (initSt 0).inputC = false ∧
    (initSt 0).splashC = false ∧
    countConstruct Slot.input (runTrace cfgAll (initSt 0) scenarioBatchOps).2
      ≤ 1 ∧
    countConstruct Slot.splash (runTrace cfgAll (initSt 0) scenarioBatchOps).2
      ≤ 1 :=
  C8_lazy_construction cfgAll
    { inputOk := false, splashOk := false, hasV4l2sink := false,
      subscribeOk := false }
    (run cfgAll (initSt 0) scenarioBatchOps) (initSt 0) 0 scenarioBatchOps
    (by decide) (by decide) rfl rfl rfl rfl

/-- C10 counterexample: in a run that quits immediately (EOS on the output
pipeline before any consumer attached), the input pipeline and its bus watch
were never created, yet the teardown sequence still calls `g_source_remove`
on the zero input watch id and `gst_element_set_state` / `gst_object_unref`
on the NULL input and splash pipeline pointers — dead resources are operated
on, contradicting the claim that only live resources are torn down. -/
theorem C10_dead_slots_torn_down :
    (run cfgAll (initSt 0) [Op.outputMsg GstMessage.eos]).inputC = false ∧
    (run cfgAll (initSt 0) [Op.outputMsg GstMessage.eos]).inputWatch = false ∧
    Act.removeWatch Slot.input false ∈
      (shutdown_teardown
        (run cfgAll (initSt 0) [Op.outputMsg GstMessage.eos])).2 ∧
    Act.destroy Slot.input false ∈
      (shutdown_teardown
        (run cfgAll (initSt 0) [Op.outputMsg GstMessage.eos])).2 ∧
    Act.destroy Slot.splash false ∈
      (shutdown_teardown
        (run cfgAll (initSt 0) [Op.outputMsg GstMessage.eos])).2 := by
  decide

/-- C10 (amended): after the run loop exits, the teardown trace is fixed —
the three bus-watch removals (input, output, splash), then the destruction of
the output, input and splash pipelines in that order — so every bus watch
removal does occur strictly before any pipeline destruction; but the sequence
is unconditional: watch ids and pipeline slots are operated on with their
recorded liveness regardless of whether they were ever created. -/
theorem C10_teardown_order_unconditional (s : St) :
    (shutdown_teardown s).2 =
      [Act.removeWatch Slot.input s.inputWatch,
       Act.removeWatch Slot.output s.outputWatch,
       Act.removeWatch Slot.splash s.splashWatch,
       Act.destroy Slot.output true,
       Act.destroy Slot.input s.inputC,
       Act.destroy Slot.splash s.splashC] ∧
    watchesBeforeDestroys (shutdown_teardown s).2 := by
  refine ⟨rfl,
    ⟨[Act.removeWatch Slot.input s.inputWatch,
      Act.removeWatch Slot.output s.outputWatch,
      Act.removeWatch Slot.splash s.splashWatch],
     [Act.destroy Slot.output true,
      Act.destroy Slot.input s.inputC,
      Act.destroy Slot.splash s.splashC], rfl, ?_, ?_⟩⟩
  · intro a ha
    simp only [List.mem_cons, List.not_mem_nil, or_false] at ha
    rcases ha with rfl | rfl | rfl <;> rfl
  · intro a ha
    simp only [List.mem_cons, List.not_mem_nil, or_false] at ha
    rcases ha with rfl | rfl | rfl <;> rfl

/-- C10 witness: the amended theorem instantiated at the immediate-EOS final
state, in which the input watch and the input and splash slots were never
created. -/
theorem C10_teardown_witness :
    (shutdown_teardown
        (run cfgAll (initSt 0) [Op.outputMsg GstMessage.eos])).2 =
      [Act.removeWatch Slot.input false,
       Act.removeWatch Slot.output true,
       Act.removeWatch Slot.splash false,
       Act.destroy Slot.output true,
       Act.destroy Slot.input false,
       Act.destroy Slot.splash false] ∧
    watchesBeforeDestroys
      (shutdown_teardown
        (run cfgAll (initSt 0) [Op.outputMsg GstMessage.eos])).2 := by
  obtain ⟨h1, h2⟩ := C10_teardown_order_unconditional
    (run cfgAll (initSt 0) [Op.outputMsg GstMessage.eos])
  exact ⟨by rw [h1]; decide, h2⟩

end V4l2Relayd
